import Mathlib

/-!
Verification of the YT-LIVE live-counter overlay scripts.

The repository contains three near-identical Node.js scripts
(`src/index.js`, `src/unnamed/part_000`, `src/unnamed/part_001`), each a
`LiveCounter` class.  This file gives a shallow embedding of the state
and the operations the claims are about:

* the per-counter animated values (`animatedValues`, pairs of a floating
  current value and an integer target), embedded over `ℚ`/`ℤ` — the
  JavaScript IEEE-754 arithmetic of the smoothing loop is modelled by
  exact rational arithmetic;
* `updateAnimatedValue` (the setTarget operation), including the
  `parseInt(v) || 0` coercion;
* `interpolateValues` — in two variants exactly as in the sources:
  `index.js` applies `current += diff * 0.15` unconditionally, while
  `part_000`/`part_001` snap `current = target` when `|diff| <= 1`
  before the smoothing step and otherwise smooth without snapping;
* `fetchChannelData` / `fetchStreamData`, with the network result
  abstracted as an `Option` of the parsed response (`none` is a failed
  or timed-out request; both catch blocks are embedded as total
  functions, the channel one leaving the state untouched and the stream
  one zeroing the live targets), and the avatar-load attempt with its
  guard `user.pfp && !this.data.channelAvatar`;
* `formatNumber`, whose division is performed in binary64 like the
  program's: `toDouble` rounds the exact quotient to the 53-bit float
  grid (round to nearest, ties to even — IEEE division is correctly
  rounded), and `toFixed1` then picks the nearest tenth of that double,
  ties to the larger, per the ECMAScript definition of `toFixed`;
  `toLocaleString` is modelled as en-US three-digit grouping;
* the guarded interval callbacks (`setupIntervals`,
  `startFrameUpdates`, `startAnimation`) as state transformers paired
  with the list of actions they initiate.
-/

namespace YTLive

/-- The five counter keys tracked by `this.data` / `this.animatedValues`. -/
inductive Key
  | subscribers
  | totalViews
  | videos
  | liveViewers
  | likes
deriving DecidableEq, Repr

/-- One entry of `this.animatedValues`: `{ current, target }`.
`current` is a JS float (modelled by `ℚ`); `target` is always produced by
`parseInt(...) || 0`, hence an integer. -/
structure AnimVal where
  current : ℚ
  target : ℤ
deriving DecidableEq, Repr

/-- The observable mutable state of a `LiveCounter` instance:
`this.data` (channel name, cached avatar handle, and the five displayed
integer counter fields), `this.animatedValues`, and the `isRunning`
flag.  The canvas, frame counter and subprocess handle are pure
plumbing and are not part of any claim's data. -/
structure CounterState where
  channelName : String
  channelAvatar : Option String
  data : Key → ℤ
  anim : Key → Option AnimVal
  isRunning : Bool

/-- Constructor state of `LiveCounter` (`src/index.js` lines 26-42):
`data` fields zero, `channelName = 'Loading...'`, no avatar, and — note —
`this.animatedValues = {}` is EMPTY: no per-key pairs are pre-populated. -/
def initState : CounterState where
  channelName := "Loading..."
  channelAvatar := none
  data := fun _ => 0
  anim := fun _ => none
  isRunning := true

/-- JS `Math.round`: round half toward positive infinity. -/
def jsRound (q : ℚ) : ℤ := ⌊q + 1/2⌋

/-- The smoothing step of `index.js` `interpolateValues` (lines 176-183):
`current += (target - current) * 0.15` — no snap of any kind is present
in this variant. -/
def interpStep (c : ℚ) (t : ℤ) : ℚ :=
  c + ((t : ℚ) - c) * 0.15

/-- The smoothing step of `part_000` (lines 234-245) / `part_001`
(lines 249-260): `if (Math.abs(diff) > 1) current += diff * 0.15 else
current = target`.  The snap is decided on the gap BEFORE the step. -/
def interpSnapStep (c : ℚ) (t : ℤ) : ℚ :=
  if 1 < |(t : ℚ) - c| then c + ((t : ℚ) - c) * 0.15 else (t : ℚ)

/-- Modelled from the spec: the spec's own description of the tick step
(§4.1) — smooth first, then snap when the gap AFTER the step is at most
one.  Kept only to compare against the code's `interpSnapStep`. -/
def specStep (c : ℚ) (t : ℤ) : ℚ :=
  let c1 := c + ((t : ℚ) - c) * 0.15
  if |(t : ℚ) - c1| ≤ 1 then (t : ℚ) else c1

example : interpStep 0 1 = 0.15 := by norm_num [interpStep]
example : interpSnapStep (21/20) 0 = 357/400 := by
  rw [interpSnapStep, if_pos (by rw [lt_abs]; norm_num)]; norm_num
example : specStep (21/20) 0 = 0 := by
  rw [specStep]; norm_num [abs_le]

/-- A raw JavaScript value as it can reach `updateAnimatedValue`: a
numeric value (the fetched counts are integers), a string, `undefined`
(an absent key of the parsed JSON), or `null`. -/
inductive RawValue
  | num (i : ℤ)
  | str (s : String)
  | undef
  | nullv
deriving DecidableEq, Repr

/-- Leading decimal digits of a character list, as a number; `none` when
there is no leading digit. -/
def parseNatDigits (cs : List Char) : Option ℕ :=
  let ds := cs.takeWhile Char.isDigit
  if ds.isEmpty then none
  else some (ds.foldl (fun acc c => acc * 10 + (c.toNat - 48)) 0)

/-- JS `parseInt` on a string (base 10): skip leading whitespace, accept
an optional sign, read leading digits, ignore trailing characters;
`none` models `NaN`. -/
def parseIntStr (s : String) : Option ℤ :=
  let cs := s.data.dropWhile fun c => c = ' ' ∨ c = '\t' ∨ c = '\n' ∨ c = '\r'
  match cs with
  | '-' :: rest => (parseNatDigits rest).map fun n => -(n : ℤ)
  | '+' :: rest => (parseNatDigits rest).map fun n => (n : ℤ)
  | _ => (parseNatDigits cs).map fun n => (n : ℤ)

/-- JS `parseInt` on a raw value; `none` models `NaN` (so
`parseInt(undefined)`, `parseInt(null)` and non-numeric strings are
`none`). -/
def jsParseInt : RawValue → Option ℤ
  | .num i => some i
  | .str s => parseIntStr s
  | .undef => none
  | .nullv => none

example : jsParseInt (.str "123abc") = some 123 := by decide
example : jsParseInt (.str "-5") = some (-5) := by decide
example : jsParseInt (.str "abc") = none := by decide
example : jsParseInt .undef = none := by decide

/-- `updateAnimatedValue(key, targetValue)` (`index.js` lines 171-174):
create `{ current: 0, target: 0 }` when the key is absent, then
`target = parseInt(targetValue) || 0` (`NaN` and `0` both yield `0`,
every other parsed integer — negative ones included — is stored as is). -/
def updateAnimatedValue (s : CounterState) (key : Key) (v : RawValue) : CounterState :=
  { s with anim := fun k =>
      if k = key then
        some { (s.anim key).getD { current := 0, target := 0 } with
               target := (jsParseInt v).getD 0 }
      else s.anim k }

/-- `interpolateValues` of `index.js` (lines 176-183): for every key of
`animatedValues`, `current += (target - current) * 0.15` and
`data[key] = Math.round(current)`; keys absent from `animatedValues`
are untouched. -/
def interpolateValues (s : CounterState) : CounterState :=
  { s with
    anim := fun k =>
      match s.anim k with
      | none => none
      | some a => some { a with current := interpStep a.current a.target },
    data := fun k =>
      match s.anim k with
      | none => s.data k
      | some a => jsRound (interpStep a.current a.target) }

/-- `interpolateValues` of `part_000`/`part_001`: same loop with the
snap-before-step variant of the smoothing update. -/
def interpolateValuesSnap (s : CounterState) : CounterState :=
  { s with
    anim := fun k =>
      match s.anim k with
      | none => none
      | some a => some { a with current := interpSnapStep a.current a.target },
    data := fun k =>
      match s.anim k with
      | none => s.data k
      | some a => jsRound (interpSnapStep a.current a.target) }

/-- JS truthiness of an optional string (`user.name`, `user.pfp`):
falsy when absent or empty. -/
def strTruthy : Option String → Bool
  | none => false
  | some s => !(s == "")

/-- The parsed channel-counter response, already collapsed from the
`{value, count}` arrays into the keys the code reads. -/
structure ChannelResponse where
  name : Option String
  pfp : Option String
  subscribers : RawValue
  views : RawValue
  videos : RawValue

/-- The parsed stream-counter response. -/
structure StreamResponse where
  viewers : RawValue
  likes : RawValue

/-- The success path of `fetchChannelData` up to the avatar block:
`channelName = user.name || 'Unknown'` and the three
`updateAnimatedValue` calls, in source order. -/
def applyChannelCounts (r : ChannelResponse) (s : CounterState) : CounterState :=
  updateAnimatedValue
    (updateAnimatedValue
      (updateAnimatedValue
        { s with channelName := if strTruthy r.name then r.name.getD "" else "Unknown" }
        Key.subscribers r.subscribers)
      Key.totalViews r.views)
    Key.videos r.videos

/-- The guard of the avatar block: `if (user.pfp && !this.data.channelAvatar)`,
evaluated on the state the success path has built so far. -/
def avatarCond (r : ChannelResponse) (s : CounterState) : Bool :=
  strTruthy r.pfp && s.channelAvatar.isNone

/-- Whether one call of `fetchChannelData` attempts a `loadImage` of the
profile picture. -/
def avatarAttempt (resp : Option ChannelResponse) (s : CounterState) : Bool :=
  match resp with
  | none => false
  | some r => avatarCond r (applyChannelCounts r s)

/-- `fetchChannelData` (`index.js` lines 115-137).  `resp = none` is a
failed request / parse: the `catch` only logs, so the state is returned
untouched and no error escapes.  `loadOk` tells whether the inner
`loadImage` succeeds; its failure is caught separately and leaves the
avatar unset.  A loaded avatar is represented by its URL. -/
def fetchChannelData (resp : Option ChannelResponse) (loadOk : Bool)
    (s : CounterState) : CounterState :=
  match resp with
  | none => s
  | some r =>
    let s4 := applyChannelCounts r s
    if avatarCond r s4 then
      if loadOk then { s4 with channelAvatar := r.pfp } else s4
    else s4

/-- `fetchStreamData` (`index.js` lines 139-151).  `resp = none` is a
failed request / parse: the `catch` logs and then explicitly calls
`updateAnimatedValue('liveViewers', 0)` and
`updateAnimatedValue('likes', 0)`; no error escapes. -/
def fetchStreamData (resp : Option StreamResponse) (s : CounterState) : CounterState :=
  match resp with
  | none =>
      updateAnimatedValue
        (updateAnimatedValue s Key.liveViewers (RawValue.num 0))
        Key.likes (RawValue.num 0)
  | some r =>
      updateAnimatedValue
        (updateAnimatedValue s Key.liveViewers r.viewers)
        Key.likes r.likes

/-- Split a character list into groups of three (used on the reversed
digit list, so the last, possibly shorter group is the leading one). -/
def chunk3 : List Char → List (List Char)
  | [] => []
  | [a] => [[a]]
  | [a, b] => [[a, b]]
  | a :: b :: c :: rest => [a, b, c] :: chunk3 rest

/-- JS `Number.prototype.toLocaleString()` on a natural number, modelled
as en-US digit grouping: decimal digits with a comma every three. -/
def natLocaleString (n : ℕ) : String :=
  String.mk (((chunk3 (Nat.toDigits 10 n).reverse).intersperse [',']).flatten.reverse)

/-- JS `toLocaleString()` on an integer. -/
def intLocaleString (i : ℤ) : String :=
  if i < 0 then "-" ++ natLocaleString i.natAbs else natLocaleString i.toNat

example : intLocaleString 999 = "999" := by decide
example : intLocaleString 1234567 = "1,234,567" := by decide
example : intLocaleString (-1234) = "-1,234" := by decide

/-- Round a rational to the nearest integer, ties to even — the IEEE 754
default rounding of a scaled significand. -/
def rne (m : ℚ) : ℤ :=
  if m - ⌊m⌋ < 1/2 then ⌊m⌋
  else if (1 : ℚ)/2 < m - ⌊m⌋ then ⌊m⌋ + 1
  else if ⌊m⌋ % 2 = 0 then ⌊m⌋ else ⌊m⌋ + 1

/-- The binary64 (double) value of a rational: round to nearest, ties to
even, onto the 53-bit-significand grid.  `e` is the binade exponent
(`2^e ≤ q < 2^(e+1)`); the significand `q * 2^(52-e)` (or `q / 2^(e-52)`
above `2^53`) lies in `[2^52, 2^53)` and is rounded to an integer.  An
argument below 1 is returned unchanged: every quotient `formatNumber`
feeds in is at least 1 in its branch, so that case is never exercised
(and neither are overflow or subnormals).  This models the IEEE
correctly-rounded division `num / 10^k` the program performs. -/
def toDouble (q : ℚ) : ℚ :=
  if 1 ≤ q then
    if Nat.log 2 ⌊q⌋₊ ≤ 52 then
      (rne (q * 2 ^ (52 - Nat.log 2 ⌊q⌋₊)) : ℚ) / 2 ^ (52 - Nat.log 2 ⌊q⌋₊)
    else
      (rne (q / 2 ^ (Nat.log 2 ⌊q⌋₊ - 52)) : ℚ) * 2 ^ (Nat.log 2 ⌊q⌋₊ - 52)
  else q

/-- JS `Number.prototype.toFixed(1)` applied to the exact value of a
double: per the ECMAScript definition, the integer `n` with `n / 10`
closest to the value, ties resolved to the larger `n` — which is
`⌊10x + 1/2⌋` — rendered with one digit after the point (the sign split
off first).  The binary64 rounding of the program's quotient happens
before this step, in `toDouble`. -/
def toFixed1 (q : ℚ) : String :=
  (if q < 0 then "-" else "")
    ++ Nat.repr ((⌊10 * |q| + 1/2⌋).toNat / 10)
    ++ "." ++ Nat.repr ((⌊10 * |q| + 1/2⌋).toNat % 10)

/-- Modelled from the spec: one decimal place obtained by truncating
beyond the first decimal (what §4.3 of the spec claims `toFixed(1)`
does).  Kept only to compare with `toFixed1`. -/
def toFixed1Trunc (q : ℚ) : String :=
  (if q < 0 then "-" else "")
    ++ Nat.repr ((⌊10 * |q|⌋).toNat / 10)
    ++ "." ++ Nat.repr ((⌊10 * |q|⌋).toNat % 10)

/-- `formatNumber` (`index.js` lines 264-269): the `>= 1e9 / 1e6 / 1e3`
ladder with `toFixed(1)` and a `B`/`M`/`K` suffix, else
`toLocaleString()`.  The division is performed in binary64
(`toDouble`), then `toFixed(1)` picks the nearest tenth of that double. -/
def formatNumber (num : ℤ) : String :=
  if 1000000000 ≤ num then toFixed1 (toDouble ((num : ℚ) / 1000000000)) ++ "B"
  else if 1000000 ≤ num then toFixed1 (toDouble ((num : ℚ) / 1000000)) ++ "M"
  else if 1000 ≤ num then toFixed1 (toDouble ((num : ℚ) / 1000)) ++ "K"
  else intLocaleString num

/-- Modelled from the spec: the same ladder with the truncating
one-decimal rendering the spec describes.  Kept only to compare with
`formatNumber`. -/
def formatNumberTrunc (num : ℤ) : String :=
  if 1000000000 ≤ num then toFixed1Trunc ((num : ℚ) / 1000000000) ++ "B"
  else if 1000000 ≤ num then toFixed1Trunc ((num : ℚ) / 1000000) ++ "M"
  else if 1000 ≤ num then toFixed1Trunc ((num : ℚ) / 1000) ++ "K"
  else intLocaleString num

lemma toFixed1Trunc_natCast_div (a d : ℕ) (hd : 0 < d) :
    toFixed1Trunc ((a : ℚ) / (d : ℚ)) =
      Nat.repr ((10 * a) / d / 10) ++ "." ++ Nat.repr ((10 * a) / d % 10) := by
  have hq : (0 : ℚ) ≤ (a : ℚ) / (d : ℚ) := by positivity
  have hd0 : ((d : ℚ)) ≠ 0 := Nat.cast_ne_zero.mpr hd.ne'
  have key : 10 * ((a : ℚ) / (d : ℚ)) = ((10 * a : ℕ) : ℚ) / ((d : ℕ) : ℚ) := by
    push_cast
    ring
  have hfloor : (⌊10 * |(a : ℚ) / (d : ℚ)|⌋).toNat = (10 * a) / d := by
    rw [abs_of_nonneg hq, key, Int.floor_toNat, Nat.floor_div_nat, Nat.floor_natCast]
  rw [toFixed1Trunc, if_neg (not_lt.mpr hq), hfloor]
  rfl

lemma formatNumber_small (i : ℤ) (h : i < 1000) :
    formatNumber i = intLocaleString i := by
  rw [formatNumber, if_neg (by omega), if_neg (by omega), if_neg (by omega)]

lemma formatNumber_k_branch (n : ℕ) (h1 : 1000 ≤ n) (h2 : n < 1000000) :
    formatNumber (n : ℤ) = toFixed1 (toDouble ((n : ℚ) / 1000)) ++ "K" := by
  rw [formatNumber, if_neg (by exact_mod_cast by omega),
    if_neg (by exact_mod_cast by omega), if_pos (by exact_mod_cast h1),
    Int.cast_natCast]

lemma formatNumber_m_branch (n : ℕ) (h1 : 1000000 ≤ n) (h2 : n < 1000000000) :
    formatNumber (n : ℤ) = toFixed1 (toDouble ((n : ℚ) / 1000000)) ++ "M" := by
  rw [formatNumber, if_neg (by exact_mod_cast by omega), if_pos (by exact_mod_cast h1),
    Int.cast_natCast]

lemma formatNumber_b_branch (n : ℕ) (h1 : 1000000000 ≤ n) :
    formatNumber (n : ℤ) = toFixed1 (toDouble ((n : ℚ) / 1000000000)) ++ "B" := by
  rw [formatNumber, if_pos (by exact_mod_cast h1), Int.cast_natCast]

lemma rne_eq_floor {m : ℚ} (h : m - ⌊m⌋ < 1/2) : rne m = ⌊m⌋ := by
  rw [rne, if_pos h]

lemma rne_close (m : ℚ) : |(rne m : ℚ) - m| ≤ 1/2 := by
  have h0 : ((⌊m⌋ : ℤ) : ℚ) ≤ m := Int.floor_le m
  have h1 : m < ⌊m⌋ + 1 := Int.lt_floor_add_one m
  rw [rne]
  split_ifs with hA hB hC
  · rw [abs_le]; constructor <;> linarith
  · push_neg at hA hB
    rw [abs_le]; push_cast; constructor <;> linarith
  · push_neg at hA hB
    rw [abs_le]; constructor <;> linarith
  · push_neg at hA hB
    rw [abs_le]; push_cast; constructor <;> linarith

lemma two_pow_log_le (q : ℚ) (hq : 1 ≤ q) :
    (2 : ℚ) ^ Nat.log 2 ⌊q⌋₊ ≤ q := by
  have hfl : 1 ≤ ⌊q⌋₊ := Nat.le_floor (by exact_mod_cast hq)
  have h2 : 2 ^ Nat.log 2 ⌊q⌋₊ ≤ ⌊q⌋₊ := Nat.pow_log_le_self 2 (by omega)
  calc (2 : ℚ) ^ Nat.log 2 ⌊q⌋₊ = ((2 ^ Nat.log 2 ⌊q⌋₊ : ℕ) : ℚ) := by push_cast; ring
    _ ≤ (⌊q⌋₊ : ℚ) := by exact_mod_cast h2
    _ ≤ q := Nat.floor_le (by linarith)

lemma log_le_52 (q : ℚ) (hq : 1 ≤ q) (hq2 : q < 2 ^ 53) :
    Nat.log 2 ⌊q⌋₊ ≤ 52 := by
  have hfl : 1 ≤ ⌊q⌋₊ := Nat.le_floor (by exact_mod_cast hq)
  have h1 : ⌊q⌋₊ < 2 ^ 53 := by
    rw [Nat.floor_lt (by linarith)]
    exact_mod_cast hq2
  have := Nat.log_lt_of_lt_pow (b := 2) (by omega : ⌊q⌋₊ ≠ 0) h1
  omega

lemma toDouble_eval {q : ℚ} {e : ℕ} (hq : 1 ≤ q) (he : Nat.log 2 ⌊q⌋₊ = e)
    (he52 : e ≤ 52) :
    toDouble q = (rne (q * 2 ^ (52 - e)) : ℚ) / 2 ^ (52 - e) := by
  rw [toDouble, if_pos hq, he, if_pos he52]

lemma toDouble_close (q : ℚ) (hq : 1 ≤ q) (hq2 : q < 2 ^ 53) :
    |toDouble q - q| ≤ q / 2 ^ 52 := by
  have he52 := log_le_52 q hq hq2
  rw [toDouble_eval hq rfl he52]
  have hpow : (0 : ℚ) < 2 ^ (52 - Nat.log 2 ⌊q⌋₊) := by positivity
  have hr := rne_close (q * 2 ^ (52 - Nat.log 2 ⌊q⌋₊))
  rw [show (rne (q * 2 ^ (52 - Nat.log 2 ⌊q⌋₊)) : ℚ) / 2 ^ (52 - Nat.log 2 ⌊q⌋₊) - q
      = ((rne (q * 2 ^ (52 - Nat.log 2 ⌊q⌋₊)) : ℚ) - q * 2 ^ (52 - Nat.log 2 ⌊q⌋₊))
        / 2 ^ (52 - Nat.log 2 ⌊q⌋₊) by field_simp; ring,
    abs_div, abs_of_pos hpow, div_le_div_iff₀ hpow (by positivity : (0 : ℚ) < 2 ^ 52)]
  have h2e := two_pow_log_le q hq
  have hsplit : (2 : ℚ) ^ Nat.log 2 ⌊q⌋₊ * 2 ^ (52 - Nat.log 2 ⌊q⌋₊) = 2 ^ 52 := by
    rw [← pow_add]
    congr 1
    omega
  have hmain : (2 : ℚ) ^ 52 ≤ q * 2 ^ (52 - Nat.log 2 ⌊q⌋₊) * 2 := by
    calc (2 : ℚ) ^ 52 = 2 ^ Nat.log 2 ⌊q⌋₊ * 2 ^ (52 - Nat.log 2 ⌊q⌋₊) := hsplit.symm
      _ ≤ q * 2 ^ (52 - Nat.log 2 ⌊q⌋₊) := by
          exact mul_le_mul_of_nonneg_right h2e (by positivity)
      _ ≤ q * 2 ^ (52 - Nat.log 2 ⌊q⌋₊) * 2 := by nlinarith [hpow, hq]
  calc |(rne (q * 2 ^ (52 - Nat.log 2 ⌊q⌋₊)) : ℚ) - q * 2 ^ (52 - Nat.log 2 ⌊q⌋₊)| * 2 ^ 52
      ≤ (1/2) * 2 ^ 52 := mul_le_mul_of_nonneg_right hr (by positivity)
    _ ≤ q * 2 ^ (52 - Nat.log 2 ⌊q⌋₊) := by linarith
    _ ≤ q * 2 ^ (52 - Nat.log 2 ⌊q⌋₊) * 1 := by linarith [mul_le_mul_of_nonneg_right h2e hpow.le]
    _ = q * 2 ^ (52 - Nat.log 2 ⌊q⌋₊) := by ring

lemma toFixed1_render (x : ℚ) (hx : 0 ≤ x) :
    toFixed1 x = Nat.repr ((⌊10 * x + 1/2⌋).toNat / 10) ++ "."
      ++ Nat.repr ((⌊10 * x + 1/2⌋).toNat % 10) := by
  rw [toFixed1, if_neg (not_lt.mpr hx), abs_of_nonneg hx]
  rfl

/-- The digit pair printed for a quotient `q ≥ 1` is the nearest tenth
of the binary64 value of `q`, hence within `1/2 + 2^-20` of `10 q`. -/
lemma toFixed1_digit_bound (q : ℚ) (h1 : 1 ≤ q) (h2 : q < 2 ^ 24) :
    ∃ d : ℕ, toFixed1 (toDouble q) = Nat.repr (d / 10) ++ "." ++ Nat.repr (d % 10)
      ∧ |(d : ℚ) - 10 * q| < 1/2 + 1/2 ^ 20 := by
  have herr := toDouble_close q h1 (h2.trans (by norm_num))
  have herr2 : |toDouble q - q| ≤ 1 / 2 ^ 28 := by
    calc |toDouble q - q| ≤ q / 2 ^ 52 := herr
      _ ≤ 2 ^ 24 / 2 ^ 52 := by
          exact (div_le_div_iff_of_pos_right (by positivity)).mpr h2.le
      _ = 1 / 2 ^ 28 := by norm_num
  have habs := abs_le.mp herr2
  have hx0 : 0 ≤ toDouble q := by
    have hqq : q / 2 ^ 52 ≤ q / 2 := by
      apply div_le_div_of_nonneg_left (by linarith) (by norm_num) (by norm_num)
    have := abs_le.mp herr
    linarith
  refine ⟨(⌊10 * toDouble q + 1/2⌋).toNat, toFixed1_render _ hx0, ?_⟩
  have hfl0 : 0 ≤ ⌊10 * toDouble q + 1/2⌋ := Int.floor_nonneg.mpr (by linarith)
  have hcast : (((⌊10 * toDouble q + 1/2⌋).toNat : ℕ) : ℚ)
      = ((⌊10 * toDouble q + 1/2⌋ : ℤ) : ℚ) := by
    exact_mod_cast congrArg (fun z : ℤ => (z : ℚ)) (Int.toNat_of_nonneg hfl0)
  have h3 : ((⌊10 * toDouble q + 1/2⌋ : ℤ) : ℚ) ≤ 10 * toDouble q + 1/2 :=
    Int.floor_le _
  have h4 : 10 * toDouble q + 1/2 < ⌊10 * toDouble q + 1/2⌋ + 1 :=
    Int.lt_floor_add_one _
  rw [hcast, abs_sub_lt_iff]
  constructor <;> nlinarith [habs.1, habs.2]

/-- Evaluation pipeline for one concrete quotient: binade `e`, rounded
significand `M` (with its fraction below one half, the case at every
value computed here) and the resulting digit pair `dd`. -/
lemma toFixed1_toDouble_eval (q : ℚ) (e : ℕ) (M : ℤ) (dd : ℕ)
    (hq1 : 1 ≤ q) (hlog : Nat.log 2 ⌊q⌋₊ = e) (he : e ≤ 52)
    (hfl : ⌊q * 2 ^ (52 - e)⌋ = M) (hfr : q * 2 ^ (52 - e) - (M : ℚ) < 1/2)
    (hd : ⌊10 * ((M : ℚ) / 2 ^ (52 - e)) + 1/2⌋ = (dd : ℤ)) :
    toFixed1 (toDouble q) = Nat.repr (dd / 10) ++ "." ++ Nat.repr (dd % 10) := by
  have hM0 : (0 : ℚ) ≤ (M : ℚ) / 2 ^ (52 - e) := by
    have h1 : (0 : ℤ) ≤ M := by
      rw [← hfl]
      exact Int.floor_nonneg.mpr (by positivity)
    exact div_nonneg (by exact_mod_cast h1) (by positivity)
  have hx : toDouble q = (M : ℚ) / 2 ^ (52 - e) := by
    rw [toDouble_eval hq1 hlog he, rne_eq_floor (by rw [hfl]; exact hfr), hfl]
  rw [hx, toFixed1_render _ hM0, hd, Int.toNat_natCast]

lemma interpSnapStep_of_close {c : ℚ} {t : ℤ} (h : |(t : ℚ) - c| ≤ 1) :
    interpSnapStep c t = t := by
  rw [interpSnapStep, if_neg (not_lt.mpr h)]

lemma interpSnapStep_of_far {c : ℚ} {t : ℤ} (h : 1 < |(t : ℚ) - c|) :
    interpSnapStep c t = c + ((t : ℚ) - c) * 0.15 := by
  rw [interpSnapStep, if_pos h]

lemma interpStep_gap (c : ℚ) (t : ℤ) :
    (t : ℚ) - interpStep c t = ((t : ℚ) - c) * (17/20) := by
  rw [interpStep, show (0.15 : ℚ) = 3/20 by norm_num]
  ring

lemma interpSnapStep_gap_far {c : ℚ} {t : ℤ} (h : 1 < |(t : ℚ) - c|) :
    (t : ℚ) - interpSnapStep c t = ((t : ℚ) - c) * (17/20) := by
  rw [interpSnapStep_of_far h, show (0.15 : ℚ) = 3/20 by norm_num]
  ring

lemma interpSnapStep_self (t : ℤ) : interpSnapStep (t : ℚ) t = t :=
  interpSnapStep_of_close (by simp)

lemma interpSnap_iter_self (t : ℤ) (n : ℕ) :
    (fun x => interpSnapStep x t)^[n] (t : ℚ) = t := by
  induction n with
  | zero => rfl
  | succ n ih => rw [Function.iterate_succ_apply]; simp [interpSnapStep_self, ih]

lemma interpSnap_converge_aux (t : ℤ) :
    ∀ n : ℕ, ∀ c : ℚ, |(t : ℚ) - c| ≤ (20/17) ^ n →
      (fun x => interpSnapStep x t)^[n + 1] c = t := by
  intro n
  induction n with
  | zero =>
    intro c h
    rw [pow_zero] at h
    simpa using interpSnapStep_of_close h
  | succ n ih =>
    intro c h
    rw [Function.iterate_succ_apply]
    by_cases hc : |(t : ℚ) - c| ≤ 1
    · show (fun x => interpSnapStep x t)^[n + 1] (interpSnapStep c t) = t
      rw [interpSnapStep_of_close hc]
      exact interpSnap_iter_self t (n + 1)
    · push_neg at hc
      apply ih
      show |(t : ℚ) - interpSnapStep c t| ≤ (20/17) ^ n
      rw [interpSnapStep_gap_far hc, abs_mul,
        abs_of_nonneg (by norm_num : (0 : ℚ) ≤ 17/20)]
      calc |(t : ℚ) - c| * (17/20) ≤ (20/17) ^ (n + 1) * (17/20) :=
            mul_le_mul_of_nonneg_right h (by norm_num)
        _ = (20/17) ^ n := by
            rw [pow_succ, mul_assoc, show (20/17 : ℚ) * (17/20) = 1 by norm_num, mul_one]

/-- Under the snapping variant, every current value reaches the target
exactly after finitely many ticks. -/
lemma interpSnap_converge (c : ℚ) (t : ℤ) :
    ∃ n : ℕ, (fun x => interpSnapStep x t)^[n] c = t := by
  obtain ⟨n, hn⟩ :=
    pow_unbounded_of_one_lt (|(t : ℚ) - c|) (by norm_num : (1 : ℚ) < 20/17)
  exact ⟨n + 1, interpSnap_converge_aux t n c hn.le⟩

lemma interpStep_no_overshoot (c : ℚ) (t : ℤ) :
    |(t : ℚ) - interpStep c t| ≤ |(t : ℚ) - c| := by
  rw [interpStep_gap, abs_mul, abs_of_nonneg (by norm_num : (0 : ℚ) ≤ 17/20)]
  exact mul_le_of_le_one_right (abs_nonneg _) (by norm_num)

lemma interpStep_sign (c : ℚ) (t : ℤ) :
    0 ≤ ((t : ℚ) - interpStep c t) * ((t : ℚ) - c) := by
  rw [interpStep_gap, show ((t : ℚ) - c) * (17/20) * ((t : ℚ) - c)
    = ((t : ℚ) - c) ^ 2 * (17/20) by ring]
  positivity

lemma interpSnapStep_no_overshoot (c : ℚ) (t : ℤ) :
    |(t : ℚ) - interpSnapStep c t| ≤ |(t : ℚ) - c| := by
  by_cases h : 1 < |(t : ℚ) - c|
  · rw [interpSnapStep_gap_far h, abs_mul,
      abs_of_nonneg (by norm_num : (0 : ℚ) ≤ 17/20)]
    exact mul_le_of_le_one_right (abs_nonneg _) (by norm_num)
  · rw [interpSnapStep_of_close (not_lt.mp h)]
    simp

lemma interpSnapStep_sign (c : ℚ) (t : ℤ) :
    0 ≤ ((t : ℚ) - interpSnapStep c t) * ((t : ℚ) - c) := by
  by_cases h : 1 < |(t : ℚ) - c|
  · rw [interpSnapStep_gap_far h, show ((t : ℚ) - c) * (17/20) * ((t : ℚ) - c)
      = ((t : ℚ) - c) ^ 2 * (17/20) by ring]
    positivity
  · rw [interpSnapStep_of_close (not_lt.mp h)]
    simp

lemma interpStep_iter_gap (c : ℚ) (t : ℤ) (n : ℕ) :
    (t : ℚ) - (fun x => interpStep x t)^[n] c = ((t : ℚ) - c) * (17/20) ^ n := by
  induction n with
  | zero => simp
  | succ n ih =>
    rw [Function.iterate_succ_apply', interpStep_gap, ih, pow_succ]
    ring

/-- Under the `index.js` variant, a current value strictly away from the
target never reaches it exactly, at any tick count. -/
lemma interpStep_iter_ne (c : ℚ) (t : ℤ) (h : c ≠ (t : ℚ)) (n : ℕ) :
    (fun x => interpStep x t)^[n] c ≠ (t : ℚ) := by
  intro he
  have hg := interpStep_iter_gap c t n
  rw [he, sub_self] at hg
  exact mul_ne_zero (sub_ne_zero.mpr (Ne.symm h))
    (pow_ne_zero n (by norm_num : (17/20 : ℚ) ≠ 0)) hg.symm

lemma updateAnimatedValue_anim_self (s : CounterState) (key : Key) (v : RawValue) :
    (updateAnimatedValue s key v).anim key
      = some { (s.anim key).getD { current := 0, target := 0 } with
               target := (jsParseInt v).getD 0 } := by
  simp [updateAnimatedValue]

lemma updateAnimatedValue_anim_ne (s : CounterState) (key k : Key) (v : RawValue)
    (h : k ≠ key) : (updateAnimatedValue s key v).anim k = s.anim k := by
  simp [updateAnimatedValue, h]

lemma updateAnimatedValue_data (s : CounterState) (key : Key) (v : RawValue) :
    (updateAnimatedValue s key v).data = s.data := rfl

lemma updateAnimatedValue_channelName (s : CounterState) (key : Key) (v : RawValue) :
    (updateAnimatedValue s key v).channelName = s.channelName := rfl

lemma updateAnimatedValue_channelAvatar (s : CounterState) (key : Key) (v : RawValue) :
    (updateAnimatedValue s key v).channelAvatar = s.channelAvatar := rfl

lemma interpolateValues_anim_none {s : CounterState} {k : Key} (h : s.anim k = none) :
    (interpolateValues s).anim k = none := by
  simp [interpolateValues, h]

lemma interpolateValues_data_none {s : CounterState} {k : Key} (h : s.anim k = none) :
    (interpolateValues s).data k = s.data k := by
  simp [interpolateValues, h]

lemma interpolateValues_anim_some {s : CounterState} {k : Key} {a : AnimVal}
    (h : s.anim k = some a) :
    (interpolateValues s).anim k = some { a with current := interpStep a.current a.target } := by
  simp [interpolateValues, h]

lemma interpolateValues_data_some {s : CounterState} {k : Key} {a : AnimVal}
    (h : s.anim k = some a) :
    (interpolateValues s).data k = jsRound (interpStep a.current a.target) := by
  simp [interpolateValues, h]

lemma interpolateValues_channelName (s : CounterState) :
    (interpolateValues s).channelName = s.channelName := rfl

lemma interpolateValues_channelAvatar (s : CounterState) :
    (interpolateValues s).channelAvatar = s.channelAvatar := rfl

lemma interpolateValuesSnap_channelName (s : CounterState) :
    (interpolateValuesSnap s).channelName = s.channelName := rfl

lemma interpolateValuesSnap_channelAvatar (s : CounterState) :
    (interpolateValuesSnap s).channelAvatar = s.channelAvatar := rfl

lemma interpolateValuesSnap_anim_none {s : CounterState} {k : Key} (h : s.anim k = none) :
    (interpolateValuesSnap s).anim k = none := by
  simp [interpolateValuesSnap, h]

lemma interpolateValuesSnap_data_none {s : CounterState} {k : Key} (h : s.anim k = none) :
    (interpolateValuesSnap s).data k = s.data k := by
  simp [interpolateValuesSnap, h]

/-- The state right after `setTarget('likes', 1)` on a fresh instance. -/
def likesOneState : CounterState :=
  updateAnimatedValue initState Key.likes (RawValue.num 1)

lemma likesOneState_anim : likesOneState.anim Key.likes = some { current := 0, target := 1 } := rfl

lemma likesOneState_iter (n : ℕ) :
    (interpolateValues^[n] likesOneState).anim Key.likes
      = some { current := 1 - (17/20) ^ n, target := 1 } := by
  induction n with
  | zero =>
    rw [Function.iterate_zero_apply, likesOneState_anim]
    norm_num
  | succ n ih =>
    rw [Function.iterate_succ_apply', interpolateValues_anim_some ih]
    simp only [Option.some.injEq, AnimVal.mk.injEq]
    refine ⟨?_, trivial⟩
    rw [interpStep, show (0.15 : ℚ) = 3/20 by norm_num, pow_succ]
    push_cast
    ring

/-- An operation of the Value Animator surface: a `setTarget`
(`updateAnimatedValue`) or one `tick()` (`interpolateValues`). -/
inductive Op
  | setT (k : Key) (v : RawValue)
  | tickOp
deriving DecidableEq, Repr

def applyOp (s : CounterState) : Op → CounterState
  | .setT k v => updateAnimatedValue s k v
  | .tickOp => interpolateValues s

def runOps (ops : List Op) (s : CounterState) : CounterState :=
  ops.foldl applyOp s

/-- Whether an operation is a `setTarget` of key `k`. -/
def touches (k : Key) : Op → Bool
  | .setT k2 _ => k2 == k
  | .tickOp => false

lemma runOps_cons (op : Op) (ops : List Op) (s : CounterState) :
    runOps (op :: ops) s = runOps ops (applyOp s op) := rfl

lemma runOps_untouched (k : Key) (ops : List Op) :
    ∀ s : CounterState, s.anim k = none →
      (∀ op ∈ ops, touches k op = false) →
      (runOps ops s).data k = s.data k ∧ (runOps ops s).anim k = none := by
  induction ops with
  | nil => exact fun s h _ => ⟨rfl, h⟩
  | cons op rest ih =>
    intro s hanim hops
    have hop := hops op (List.mem_cons_self op rest)
    have hrest : ∀ o ∈ rest, touches k o = false :=
      fun o ho => hops o (List.mem_cons_of_mem op ho)
    rw [runOps_cons]
    cases op with
    | setT k2 v =>
      have hk2 : k ≠ k2 := by
        simp only [touches, beq_eq_false_iff_ne, ne_eq] at hop
        exact fun he => hop he.symm
      have h1 : (applyOp s (Op.setT k2 v)).anim k = none := by
        rw [show applyOp s (Op.setT k2 v) = updateAnimatedValue s k2 v from rfl,
          updateAnimatedValue_anim_ne s k2 k v hk2]
        exact hanim
      obtain ⟨hd, ha⟩ := ih (applyOp s (Op.setT k2 v)) h1 hrest
      exact ⟨by rw [hd]; rfl, ha⟩
    | tickOp =>
      have h1 : (applyOp s Op.tickOp).anim k = none := interpolateValues_anim_none hanim
      obtain ⟨hd, ha⟩ := ih (applyOp s Op.tickOp) h1 hrest
      exact ⟨by rw [hd]; exact interpolateValues_data_none hanim, ha⟩

/-- The side effects a scheduled callback can initiate. -/
inductive Action
  | renderA
  | fetchChannelA
  | fetchStreamA
deriving DecidableEq, Repr

/-- The 60-second callback of `setupIntervals` (`index.js` lines 69-71):
`if (this.isRunning) this.fetchChannelData()`. -/
def channelIntervalCb (resp : Option ChannelResponse) (loadOk : Bool)
    (s : CounterState) : CounterState × List Action :=
  if s.isRunning then (fetchChannelData resp loadOk s, [Action.fetchChannelA]) else (s, [])

/-- The 10-second callback of `setupIntervals` (`index.js` lines 73-75):
`if (this.isRunning) this.fetchStreamData()`. -/
def streamIntervalCb (resp : Option StreamResponse) (s : CounterState) :
    CounterState × List Action :=
  if s.isRunning then (fetchStreamData resp s, [Action.fetchStreamA]) else (s, [])

/-- The frame callback of `startFrameUpdates` (`index.js` lines 284-286):
`if (this.isRunning) this.renderFrame()`; the state effect of
`renderFrame` is `interpolateValues` (drawing and the PNG write touch no
modelled state). -/
def frameIntervalCb (s : CounterState) : CounterState × List Action :=
  if s.isRunning then (interpolateValues s, [Action.renderA]) else (s, [])

/-- The `animate` callback of `startAnimation` (`part_000` lines 376-385,
`part_001` lines 420-434): `if (!this.isRunning) return;` then render
only when `deltaTime >= targetInterval - 2`. -/
def animateCb (delta targetInterval : ℚ) (s : CounterState) : CounterState × List Action :=
  if s.isRunning then
    if targetInterval - 2 ≤ delta then (interpolateValuesSnap s, [Action.renderA])
    else (s, [])
  else (s, [])

lemma applyChannelCounts_channelAvatar (r : ChannelResponse) (s : CounterState) :
    (applyChannelCounts r s).channelAvatar = s.channelAvatar := rfl

lemma fetchChannelData_avatar_some {resp : Option ChannelResponse} {loadOk : Bool}
    {s : CounterState} {a : String} (h : s.channelAvatar = some a) :
    (fetchChannelData resp loadOk s).channelAvatar = some a := by
  cases resp with
  | none => exact h
  | some r =>
    have hc : avatarCond r (applyChannelCounts r s) = false := by
      simp [avatarCond, applyChannelCounts_channelAvatar, h]
    simp [fetchChannelData, hc, applyChannelCounts_channelAvatar, h]

lemma avatarAttempt_cached {resp : Option ChannelResponse} {s : CounterState}
    {a : String} (h : s.channelAvatar = some a) : avatarAttempt resp s = false := by
  cases resp with
  | none => rfl
  | some r => simp [avatarAttempt, avatarCond, applyChannelCounts_channelAvatar, h]

/-- How many avatar-load attempts a sequence of channel refreshes makes,
each event being a response (`none` = failed fetch) and whether the
inner `loadImage` would succeed. -/
def attemptCount : List (Option ChannelResponse × Bool) → CounterState → ℕ
  | [], _ => 0
  | e :: rest, s =>
    (if avatarAttempt e.1 s then 1 else 0) + attemptCount rest (fetchChannelData e.1 e.2 s)

lemma attemptCount_cached (evs : List (Option ChannelResponse × Bool)) :
    ∀ (s : CounterState) (a : String), s.channelAvatar = some a → attemptCount evs s = 0 := by
  induction evs with
  | nil => intro s a _; rfl
  | cons e rest ih =>
    intro s a h
    rw [attemptCount, avatarAttempt_cached h]
    simpa using ih (fetchChannelData e.1 e.2 s) a (fetchChannelData_avatar_some h)

/-- Claim C1, counterexample: at the concrete state current = 21/20,
target = 0 (reachable via `setTarget 7; tick(); setTarget 0`), the
claimed rule — smooth first, snap when the gap AFTER the step is at most
1 — returns 0, but the snapping variants' step (`interpSnapStep`, which
decides the snap on the gap BEFORE the step) returns 357/400, as does
the `index.js` step, which never snaps.  The claimed update rule is not
the code's. -/
theorem C1_snap_after_cex :
    specStep (21/20) 0 = 0
    ∧ interpSnapStep (21/20) 0 = 357/400
    ∧ interpStep (21/20) 0 = 357/400
    ∧ interpSnapStep (21/20) 0 ≠ specStep (21/20) 0 := by
  have h1 : specStep (21/20) 0 = 0 := by rw [specStep]; norm_num [abs_le]
  have h2 : interpSnapStep (21/20) 0 = 357/400 := by
    rw [interpSnapStep, if_pos (by rw [lt_abs]; norm_num)]; norm_num
  have h3 : interpStep (21/20) 0 = 357/400 := by rw [interpStep]; norm_num
  exact ⟨h1, h2, h3, by rw [h1, h2]; norm_num⟩

/-- Claim C1 (amended): one tick of the snapping variants snaps the
counter exactly to `t` whenever `|t - c| ≤ 1` BEFORE the step and
otherwise updates it by the smoothing step `c + (t - c) * 0.15` with no
snap after the step; the `index.js` variant applies the smoothing step
unconditionally; with the snap, the counter reaches `t` exactly after
finitely many ticks once targets stop changing. -/
theorem C1_tick_step_and_convergence :
    (∀ (c : ℚ) (t : ℤ), |(t : ℚ) - c| ≤ 1 → interpSnapStep c t = t)
    ∧ (∀ (c : ℚ) (t : ℤ), 1 < |(t : ℚ) - c| →
        interpSnapStep c t = c + ((t : ℚ) - c) * 0.15)
    ∧ (∀ (c : ℚ) (t : ℤ), interpStep c t = c + ((t : ℚ) - c) * 0.15)
    ∧ (∀ (c : ℚ) (t : ℤ), ∃ n : ℕ, (fun x => interpSnapStep x t)^[n] c = t) :=
  ⟨fun _ _ h => interpSnapStep_of_close h,
   fun _ _ h => interpSnapStep_of_far h,
   fun _ _ => rfl,
   interpSnap_converge⟩

/-- Claim C1, witness for `C1_tick_step_and_convergence` at current 1/2,
target 0 (snap) and current 3, target 0 (smooth). -/
theorem C1_tick_step_witness :
    interpSnapStep (1/2) 0 = ((0 : ℤ) : ℚ)
    ∧ interpSnapStep 3 0 = 3 + (((0 : ℤ) : ℚ) - 3) * 0.15 :=
  ⟨C1_tick_step_and_convergence.1 (1/2) 0 (by rw [abs_le]; norm_num),
   C1_tick_step_and_convergence.2.1 3 0 (by rw [lt_abs]; norm_num)⟩

/-- Claim C2: a failed stream refresh (`resp = none`) sets the
liveViewers and likes targets to 0 while preserving their current
values, the displayed data, the channel name and the avatar; a failed
channel refresh returns the state entirely unchanged.  Both embeddings
are total state transformers: the caught fetch error never escapes to
the caller. -/
theorem C2_failure_paths : ∀ (s : CounterState) (loadOk : Bool),
    ((fetchStreamData none s).anim Key.liveViewers).map AnimVal.target = some 0
    ∧ ((fetchStreamData none s).anim Key.likes).map AnimVal.target = some 0
    ∧ ((fetchStreamData none s).anim Key.liveViewers).map AnimVal.current
        = some (((s.anim Key.liveViewers).getD { current := 0, target := 0 }).current)
    ∧ ((fetchStreamData none s).anim Key.likes).map AnimVal.current
        = some (((s.anim Key.likes).getD { current := 0, target := 0 }).current)
    ∧ (fetchStreamData none s).data = s.data
    ∧ (fetchStreamData none s).channelName = s.channelName
    ∧ (fetchStreamData none s).channelAvatar = s.channelAvatar
    ∧ fetchChannelData none loadOk s = s :=
  fun _ _ => ⟨rfl, rfl, rfl, rfl, rfl, rfl, rfl, rfl⟩

/-- Claim C5, counterexample: under the `index.js` `interpolateValues`
(no snap), after `setTarget('likes', 1)` on a fresh instance there is no
number of ticks after which the likes current value equals the target:
over exact arithmetic the gap only shrinks by the factor 17/20, so
`current` does not converge to the last-set target within any bounded
number of ticks. -/
theorem C5_no_finite_convergence_cex :
    ¬ ∃ n : ℕ, (interpolateValues^[n] likesOneState).anim Key.likes
        = some { current := 1, target := 1 } := by
  rintro ⟨n, hn⟩
  rw [likesOneState_iter n] at hn
  simp only [Option.some.injEq, AnimVal.mk.injEq, and_true] at hn
  have h0 : (17/20 : ℚ) ^ n = 0 := by linarith
  exact pow_ne_zero n (by norm_num : (17/20 : ℚ) ≠ 0) h0

/-- Claim C5 (amended): under the snapping variants the current value
reaches the last-set target within finitely many ticks, approaching it
monotonically and never moving past it; the `index.js` step also
approaches monotonically without overshoot, but its current value never
exactly reaches a target it does not already equal. -/
theorem C5_convergence_and_monotonicity :
    (∀ (c : ℚ) (t : ℤ), ∃ n : ℕ, (fun x => interpSnapStep x t)^[n] c = t)
    ∧ (∀ (c : ℚ) (t : ℤ), |(t : ℚ) - interpSnapStep c t| ≤ |(t : ℚ) - c|
        ∧ 0 ≤ ((t : ℚ) - interpSnapStep c t) * ((t : ℚ) - c))
    ∧ (∀ (c : ℚ) (t : ℤ), |(t : ℚ) - interpStep c t| ≤ |(t : ℚ) - c|
        ∧ 0 ≤ ((t : ℚ) - interpStep c t) * ((t : ℚ) - c))
    ∧ (∀ (c : ℚ) (t : ℤ), c ≠ (t : ℚ) →
        ∀ n : ℕ, (fun x => interpStep x t)^[n] c ≠ (t : ℚ)) :=
  ⟨interpSnap_converge,
   fun c t => ⟨interpSnapStep_no_overshoot c t, interpSnapStep_sign c t⟩,
   fun c t => ⟨interpStep_no_overshoot c t, interpStep_sign c t⟩,
   interpStep_iter_ne⟩

/-- Claim C5, witness for `C5_convergence_and_monotonicity`: from
current 0 toward target 1 the `index.js` step has not reached the target
after one tick. -/
theorem C5_convergence_witness :
    (fun x => interpStep x (1 : ℤ))^[1] (0 : ℚ) ≠ ((1 : ℤ) : ℚ) :=
  C5_convergence_and_monotonicity.2.2.2 0 1 (by norm_num) 1

/-- Claim C3, counterexample: `toFixed(1)` rounds to the nearest tenth
(half up) rather than truncating: the code formats 1980 as "2.0K", while
the claimed truncation would give "1.9K". -/
lemma fmt1000 : formatNumber 1000 = "1.0K" := by
  rw [show (1000 : ℤ) = ((1000 : ℕ) : ℤ) from rfl,
    formatNumber_k_branch 1000 (by norm_num) (by norm_num),
    toFixed1_toDouble_eval (((1000 : ℕ) : ℚ) / 1000) 0 4503599627370496 10
      (by norm_num)
      (by rw [show ⌊((1000 : ℕ) : ℚ) / 1000⌋₊ = 1 from
            (Nat.floor_eq_iff (by positivity)).mpr (by norm_num)]
          exact Nat.log_one_right 2)
      (by norm_num)
      (Int.floor_eq_iff.mpr (by norm_num))
      (by norm_num)
      (Int.floor_eq_iff.mpr (by norm_num))]
  decide

lemma fmt1150 : formatNumber 1150 = "1.1K" := by
  rw [show (1150 : ℤ) = ((1150 : ℕ) : ℤ) from rfl,
    formatNumber_k_branch 1150 (by norm_num) (by norm_num),
    toFixed1_toDouble_eval (((1150 : ℕ) : ℚ) / 1000) 0 5179139571476070 11
      (by norm_num)
      (by rw [show ⌊((1150 : ℕ) : ℚ) / 1000⌋₊ = 1 from
            (Nat.floor_eq_iff (by positivity)).mpr (by norm_num)]
          exact Nat.log_one_right 2)
      (by norm_num)
      (Int.floor_eq_iff.mpr (by norm_num))
      (by norm_num)
      (Int.floor_eq_iff.mpr (by norm_num))]
  decide

lemma fmt1450 : formatNumber 1450 = "1.4K" := by
  rw [show (1450 : ℤ) = ((1450 : ℕ) : ℤ) from rfl,
    formatNumber_k_branch 1450 (by norm_num) (by norm_num),
    toFixed1_toDouble_eval (((1450 : ℕ) : ℚ) / 1000) 0 6530219459687219 14
      (by norm_num)
      (by rw [show ⌊((1450 : ℕ) : ℚ) / 1000⌋₊ = 1 from
            (Nat.floor_eq_iff (by positivity)).mpr (by norm_num)]
          exact Nat.log_one_right 2)
      (by norm_num)
      (Int.floor_eq_iff.mpr (by norm_num))
      (by norm_num)
      (Int.floor_eq_iff.mpr (by norm_num))]
  decide

lemma fmt1980 : formatNumber 1980 = "2.0K" := by
  rw [show (1980 : ℤ) = ((1980 : ℕ) : ℤ) from rfl,
    formatNumber_k_branch 1980 (by norm_num) (by norm_num),
    toFixed1_toDouble_eval (((1980 : ℕ) : ℚ) / 1000) 0 8917127262193582 20
      (by norm_num)
      (by rw [show ⌊((1980 : ℕ) : ℚ) / 1000⌋₊ = 1 from
            (Nat.floor_eq_iff (by positivity)).mpr (by norm_num)]
          exact Nat.log_one_right 2)
      (by norm_num)
      (Int.floor_eq_iff.mpr (by norm_num))
      (by norm_num)
      (Int.floor_eq_iff.mpr (by norm_num))]
  decide

lemma fmt1500000 : formatNumber 1500000 = "1.5M" := by
  rw [show (1500000 : ℤ) = ((1500000 : ℕ) : ℤ) from rfl,
    formatNumber_m_branch 1500000 (by norm_num) (by norm_num),
    toFixed1_toDouble_eval (((1500000 : ℕ) : ℚ) / 1000000) 0 6755399441055744 15
      (by norm_num)
      (by rw [show ⌊((1500000 : ℕ) : ℚ) / 1000000⌋₊ = 1 from
            (Nat.floor_eq_iff (by positivity)).mpr (by norm_num)]
          exact Nat.log_one_right 2)
      (by norm_num)
      (Int.floor_eq_iff.mpr (by norm_num))
      (by norm_num)
      (Int.floor_eq_iff.mpr (by norm_num))]
  decide

lemma fmt2300000000 : formatNumber 2300000000 = "2.3B" := by
  rw [show (2300000000 : ℤ) = ((2300000000 : ℕ) : ℤ) from rfl,
    formatNumber_b_branch 2300000000 (by norm_num),
    toFixed1_toDouble_eval (((2300000000 : ℕ) : ℚ) / 1000000000) 1 5179139571476070 23
      (by norm_num)
      (by rw [show ⌊((2300000000 : ℕ) : ℚ) / 1000000000⌋₊ = 2 from
            (Nat.floor_eq_iff (by positivity)).mpr (by norm_num)]
          exact Nat.log_eq_of_pow_le_of_lt_pow (by norm_num) (by norm_num))
      (by norm_num)
      (Int.floor_eq_iff.mpr (by norm_num))
      (by norm_num)
      (Int.floor_eq_iff.mpr (by norm_num))]
  decide

lemma formatNumber_kApprox (n : ℕ) (h1 : 1000 ≤ n) (h2 : n < 1000000) :
    ∃ d : ℕ, formatNumber (n : ℤ) = Nat.repr (d / 10) ++ "." ++ Nat.repr (d % 10) ++ "K"
      ∧ |(d : ℚ) - (n : ℚ) / 100| < 1/2 + 1/2 ^ 20 := by
  obtain ⟨d, hrender, hbound⟩ := toFixed1_digit_bound ((n : ℚ) / 1000)
    ((one_le_div (by norm_num)).mpr (by exact_mod_cast h1))
    (by rw [div_lt_iff₀ (by norm_num)]
        calc ((n : ℕ) : ℚ) < 1000000 := by exact_mod_cast h2
          _ ≤ 2 ^ 24 * 1000 := by norm_num)
  refine ⟨d, ?_, ?_⟩
  · rw [formatNumber_k_branch n h1 h2, hrender]
  · rw [show (10 : ℚ) * ((n : ℚ) / 1000) = (n : ℚ) / 100 by ring] at hbound
    exact hbound

lemma formatNumber_mApprox (n : ℕ) (h1 : 1000000 ≤ n) (h2 : n < 1000000000) :
    ∃ d : ℕ, formatNumber (n : ℤ) = Nat.repr (d / 10) ++ "." ++ Nat.repr (d % 10) ++ "M"
      ∧ |(d : ℚ) - (n : ℚ) / 100000| < 1/2 + 1/2 ^ 20 := by
  obtain ⟨d, hrender, hbound⟩ := toFixed1_digit_bound ((n : ℚ) / 1000000)
    ((one_le_div (by norm_num)).mpr (by exact_mod_cast h1))
    (by rw [div_lt_iff₀ (by norm_num)]
        calc ((n : ℕ) : ℚ) < 1000000000 := by exact_mod_cast h2
          _ ≤ 2 ^ 24 * 1000000 := by norm_num)
  refine ⟨d, ?_, ?_⟩
  · rw [formatNumber_m_branch n h1 h2, hrender]
  · rw [show (10 : ℚ) * ((n : ℚ) / 1000000) = (n : ℚ) / 100000 by ring] at hbound
    exact hbound

lemma formatNumber_bApprox (n : ℕ) (h1 : 1000000000 ≤ n) (h2 : n < 9007199254740992) :
    ∃ d : ℕ, formatNumber (n : ℤ) = Nat.repr (d / 10) ++ "." ++ Nat.repr (d % 10) ++ "B"
      ∧ |(d : ℚ) - (n : ℚ) / 100000000| < 1/2 + 1/2 ^ 20 := by
  obtain ⟨d, hrender, hbound⟩ := toFixed1_digit_bound ((n : ℚ) / 1000000000)
    ((one_le_div (by norm_num)).mpr (by exact_mod_cast h1))
    (by rw [div_lt_iff₀ (by norm_num)]
        calc ((n : ℕ) : ℚ) < 9007199254740992 := by exact_mod_cast h2
          _ ≤ 2 ^ 24 * 1000000000 := by norm_num)
  refine ⟨d, ?_, ?_⟩
  · rw [formatNumber_b_branch n h1, hrender]
  · rw [show (10 : ℚ) * ((n : ℚ) / 1000000000) = (n : ℚ) / 100000000 by ring] at hbound
    exact hbound

/-- Claim C3, counterexample: `toFixed(1)` does not truncate beyond the
first decimal: the code formats 1980 as "2.0K" (the binary64 quotient of
1.98 rounds up to the nearest tenth), while the claimed truncation
behaviour would give "1.9K". -/
theorem C3_truncation_cex :
    formatNumber 1980 = "2.0K"
    ∧ formatNumberTrunc 1980 = "1.9K"
    ∧ formatNumber 1980 ≠ formatNumberTrunc 1980 := by
  have h2 : formatNumberTrunc 1980 = "1.9K" := by
    rw [formatNumberTrunc, if_neg (by norm_num), if_neg (by norm_num),
      if_pos (by norm_num),
      show (((1980 : ℤ)) : ℚ) = ((1980 : ℕ) : ℚ) by norm_num,
      show ((1000 : ℚ)) = ((1000 : ℕ) : ℚ) by norm_num,
      toFixed1Trunc_natCast_div 1980 1000 (by norm_num)]
    decide
  exact ⟨fmt1980, h2, by rw [fmt1980, h2]; decide⟩

/-- Claim C3 (amended): the formatter uses the `≥1e9 → B`, `≥1e6 → M`,
`≥1e3 → K` ladder with exactly one decimal place produced by
`toFixed(1)` on the binary64 quotient — the nearest tenth of the double,
ties to the larger, not truncation — so the digit pair is always within
`1/2 + 2^-20` of the exact tenths of the input, matching exact half-up
rounding except when the exact quotient lies within `2^-20` of a tie,
where the double decides (1150 → "1.1K" and 1450 → "1.4K", both below
the exact tie); below 1000 the plain locale-grouped integer is
returned.  In particular 999 → "999", 1000 → "1.0K",
1500000 → "1.5M", 2300000000 → "2.3B".  (The B range is stated for
inputs below 2^53, the exactly-representable integers.) -/
theorem C3_formatNumber_ladder :
    formatNumber 999 = "999"
    ∧ formatNumber 1000 = "1.0K"
    ∧ formatNumber 1500000 = "1.5M"
    ∧ formatNumber 2300000000 = "2.3B"
    ∧ formatNumber 1150 = "1.1K"
    ∧ formatNumber 1450 = "1.4K"
    ∧ (∀ n : ℕ, 1000 ≤ n → n < 1000000 → ∃ d : ℕ,
        formatNumber (n : ℤ) = Nat.repr (d / 10) ++ "." ++ Nat.repr (d % 10) ++ "K"
        ∧ |(d : ℚ) - (n : ℚ) / 100| < 1/2 + 1/2 ^ 20)
    ∧ (∀ n : ℕ, 1000000 ≤ n → n < 1000000000 → ∃ d : ℕ,
        formatNumber (n : ℤ) = Nat.repr (d / 10) ++ "." ++ Nat.repr (d % 10) ++ "M"
        ∧ |(d : ℚ) - (n : ℚ) / 100000| < 1/2 + 1/2 ^ 20)
    ∧ (∀ n : ℕ, 1000000000 ≤ n → n < 9007199254740992 → ∃ d : ℕ,
        formatNumber (n : ℤ) = Nat.repr (d / 10) ++ "." ++ Nat.repr (d % 10) ++ "B"
        ∧ |(d : ℚ) - (n : ℚ) / 100000000| < 1/2 + 1/2 ^ 20)
    ∧ (∀ n : ℕ, n < 1000 → formatNumber (n : ℤ) = natLocaleString n) := by
  refine ⟨?_, fmt1000, fmt1500000, fmt2300000000, fmt1150, fmt1450,
    formatNumber_kApprox, formatNumber_mApprox, formatNumber_bApprox, ?_⟩
  · rw [formatNumber_small 999 (by norm_num)]; decide
  · intro n h
    rw [formatNumber_small _ (by exact_mod_cast h), intLocaleString,
      if_neg (by omega), Int.toNat_natCast]

/-- Claim C3, witness for `C3_formatNumber_ladder` in the K range. -/
theorem C3_formatNumber_witness :
    ∃ d : ℕ, formatNumber ((1234 : ℕ) : ℤ)
        = Nat.repr (d / 10) ++ "." ++ Nat.repr (d % 10) ++ "K"
      ∧ |(d : ℚ) - ((1234 : ℕ) : ℚ) / 100| < 1/2 + 1/2 ^ 20 :=
  C3_formatNumber_ladder.2.2.2.2.2.2.1 1234 (by norm_num) (by norm_num)

/-- Claim C4, counterexample: `setTarget('likes', -5)` stores the
negative target -5 (`parseInt(-5) || 0` evaluates to -5), refuting that
every raw input is coerced to a non-negative integer. -/
theorem C4_negative_target_cex :
    ((updateAnimatedValue initState Key.likes (RawValue.num (-5))).anim Key.likes).map
        AnimVal.target = some (-5)
    ∧ ¬ (0 : ℤ) ≤ -5 :=
  ⟨rfl, by norm_num⟩

/-- Claim C4 (amended): for every key and raw value, `setTarget` stores
`parseInt(raw) || 0` as the target — `0` for non-numeric, absent
(`undefined`) or `null` input, the parsed integer stored as-is, sign
included, otherwise — and leaves the current value unchanged (a key
never set before gets current 0); other keys, the displayed data, the
channel name and the avatar are untouched. -/
theorem C4_setTarget_coercion :
    (∀ (s : CounterState) (k : Key) (v : RawValue),
        ((updateAnimatedValue s k v).anim k).map AnimVal.target
          = some ((jsParseInt v).getD 0))
    ∧ (∀ (s : CounterState) (k : Key) (v : RawValue),
        ((updateAnimatedValue s k v).anim k).map AnimVal.current
          = some (((s.anim k).getD { current := 0, target := 0 }).current))
    ∧ (∀ (s : CounterState) (k : Key) (str : String), parseIntStr str = none →
        ((updateAnimatedValue s k (RawValue.str str)).anim k).map AnimVal.target = some 0)
    ∧ (∀ (s : CounterState) (k : Key),
        ((updateAnimatedValue s k RawValue.undef).anim k).map AnimVal.target = some 0)
    ∧ (∀ (s : CounterState) (k k2 : Key) (v : RawValue), k2 ≠ k →
        (updateAnimatedValue s k v).anim k2 = s.anim k2)
    ∧ (∀ (s : CounterState) (k : Key) (v : RawValue),
        (updateAnimatedValue s k v).data = s.data
        ∧ (updateAnimatedValue s k v).channelName = s.channelName
        ∧ (updateAnimatedValue s k v).channelAvatar = s.channelAvatar) := by
  refine ⟨?_, ?_, ?_, ?_, ?_, ?_⟩
  · intro s k v; rw [updateAnimatedValue_anim_self]; rfl
  · intro s k v; rw [updateAnimatedValue_anim_self]; rfl
  · intro s k str h
    rw [updateAnimatedValue_anim_self]
    simp [jsParseInt, h]
  · intro s k; rw [updateAnimatedValue_anim_self]; rfl
  · exact fun s k k2 v h => updateAnimatedValue_anim_ne s k k2 v h
  · exact fun s k v => ⟨rfl, rfl, rfl⟩

/-- Claim C4, witness for `C4_setTarget_coercion` at a non-numeric
string and at a pair of distinct keys. -/
theorem C4_setTarget_witness :
    ((updateAnimatedValue initState Key.likes (RawValue.str "abc")).anim Key.likes).map
        AnimVal.target = some 0
    ∧ (updateAnimatedValue initState Key.likes (RawValue.num 7)).anim Key.videos
        = initState.anim Key.videos :=
  ⟨C4_setTarget_coercion.2.2.1 initState Key.likes "abc" (by decide),
   C4_setTarget_coercion.2.2.2.2.1 initState Key.likes Key.videos (RawValue.num 7)
     (by decide)⟩

/-- Claim C6, counterexample: the constructor does not pre-populate
`{current: 0, target: 0}` pairs for the known keys — `animatedValues`
starts empty — even though the first tick still displays 0 for every
key (the zeros come from the `this.data` initialisation). -/
theorem C6_no_prepopulated_pairs_cex :
    initState.anim Key.subscribers = none
    ∧ initState.anim Key.subscribers ≠ some { current := 0, target := 0 }
    ∧ (interpolateValues initState).data Key.subscribers = 0 :=
  ⟨rfl, fun h => Option.noConfusion h, rfl⟩

/-- Claim C6 (amended): a tick before any `setTarget` displays 0 for
every known counter key — never a missing value — and leaves
`animatedValues` empty: the zeros come from the constructor initialising
every `this.data` counter field to 0, tick iterating only over the (so
far nonexistent) keys of `animatedValues`, not from pre-populated
current/target pairs; the snapping variants behave identically. -/
theorem C6_first_tick_displays_zero : ∀ k : Key,
    (interpolateValues initState).data k = 0
    ∧ (interpolateValues initState).anim k = none
    ∧ (interpolateValuesSnap initState).data k = 0
    ∧ initState.data k = 0 :=
  fun _ =>
    ⟨(interpolateValues_data_none rfl).trans rfl,
     interpolateValues_anim_none rfl,
     (interpolateValuesSnap_data_none rfl).trans rfl,
     rfl⟩

/-- Claim C7: an avatar load is attempted exactly when the response
carries a truthy profile-picture URL and no avatar is cached; a cached
avatar is kept and no further attempt is ever made across any sequence
of refreshes; a failed load is non-fatal and leaves the avatar unset,
so a later refresh may retry. -/
theorem C7_avatar_at_most_once :
    (∀ (resp : Option ChannelResponse) (s : CounterState),
        avatarAttempt resp s = true
          ↔ ∃ r, resp = some r ∧ strTruthy r.pfp = true ∧ s.channelAvatar = none)
    ∧ (∀ (resp : Option ChannelResponse) (loadOk : Bool) (s : CounterState) (a : String),
        s.channelAvatar = some a →
          (fetchChannelData resp loadOk s).channelAvatar = some a
          ∧ avatarAttempt resp s = false)
    ∧ (∀ (evs : List (Option ChannelResponse × Bool)) (s : CounterState) (a : String),
        s.channelAvatar = some a → attemptCount evs s = 0)
    ∧ (∀ (resp : Option ChannelResponse) (s : CounterState),
        s.channelAvatar = none → (fetchChannelData resp false s).channelAvatar = none) := by
  refine ⟨?_, ?_, ?_, ?_⟩
  · intro resp s
    cases resp with
    | none => simp [avatarAttempt]
    | some r =>
      simp [avatarAttempt, avatarCond, applyChannelCounts_channelAvatar,
        Option.isNone_iff_eq_none]
  · exact fun resp loadOk s a h =>
      ⟨fetchChannelData_avatar_some h, avatarAttempt_cached h⟩
  · exact fun evs s a h => attemptCount_cached evs s a h
  · intro resp s h
    cases resp with
    | none => exact h
    | some r =>
      simp [fetchChannelData, applyChannelCounts_channelAvatar, h, ite_self]

/-- A state with a cached avatar, for the witness of
`C7_avatar_at_most_once`. -/
def cachedAvatarState : CounterState :=
  { initState with channelAvatar := some "pfp.png" }

/-- Claim C7, witness for `C7_avatar_at_most_once` at a concrete cached
state. -/
theorem C7_avatar_witness :
    (fetchChannelData none true cachedAvatarState).channelAvatar = some "pfp.png"
    ∧ avatarAttempt none cachedAvatarState = false
    ∧ attemptCount [(none, true), (none, false)] cachedAvatarState = 0 := by
  obtain ⟨h1, h2⟩ := C7_avatar_at_most_once.2.1 none true cachedAvatarState "pfp.png" rfl
  exact ⟨h1, h2,
    C7_avatar_at_most_once.2.2.1 [(none, true), (none, false)] cachedAvatarState
      "pfp.png" rfl⟩

/-- Claim C8: once the running flag is cleared, every periodically
scheduled callback — the 60-second channel fetch, the 10-second stream
fetch, the frame interval of `index.js`, and the `animate` loop of the
part variants — returns the state unchanged and initiates no render,
fetch, or any other action (no variant restarts the subprocess at all). -/
theorem C8_stopped_callbacks_inert :
    ∀ (s : CounterState) (resp : Option ChannelResponse) (loadOk : Bool)
      (sresp : Option StreamResponse) (delta ti : ℚ),
      s.isRunning = false →
        channelIntervalCb resp loadOk s = (s, [])
        ∧ streamIntervalCb sresp s = (s, [])
        ∧ frameIntervalCb s = (s, [])
        ∧ animateCb delta ti s = (s, []) := by
  intro s resp loadOk sresp delta ti h
  refine ⟨?_, ?_, ?_, ?_⟩ <;>
    simp [channelIntervalCb, streamIntervalCb, frameIntervalCb, animateCb, h]

/-- A stopped state, for the witness of `C8_stopped_callbacks_inert`. -/
def stoppedState : CounterState := { initState with isRunning := false }

/-- Claim C8, witness for `C8_stopped_callbacks_inert` at a concrete
stopped state. -/
theorem C8_stopped_witness :
    channelIntervalCb none false stoppedState = (stoppedState, [])
    ∧ streamIntervalCb none stoppedState = (stoppedState, [])
    ∧ frameIntervalCb stoppedState = (stoppedState, [])
    ∧ animateCb 0 0 stoppedState = (stoppedState, []) :=
  C8_stopped_callbacks_inert stoppedState none false none 0 0 rfl

/-- Claim C9: `tick()` writes only data fields of keys that have
previously received a `setTarget`: over any operation sequence from the
fresh state, a key never set keeps its displayed value 0 and stays
outside `animatedValues`; and every tick leaves the channel name and
the cached avatar unchanged, in all variants. -/
theorem C9_tick_frame_effect :
    (∀ (ops : List Op) (k : Key), (∀ op ∈ ops, touches k op = false) →
        (runOps ops initState).data k = 0 ∧ (runOps ops initState).anim k = none)
    ∧ (∀ s : CounterState,
        (interpolateValues s).channelName = s.channelName
        ∧ (interpolateValues s).channelAvatar = s.channelAvatar
        ∧ (interpolateValuesSnap s).channelName = s.channelName
        ∧ (interpolateValuesSnap s).channelAvatar = s.channelAvatar) := by
  refine ⟨?_, fun s => ⟨rfl, rfl, rfl, rfl⟩⟩
  intro ops k h
  obtain ⟨h1, h2⟩ := runOps_untouched k ops initState rfl h
  exact ⟨h1.trans rfl, h2⟩

/-- Claim C9, witness for `C9_tick_frame_effect`: after
`setTarget('likes', 7)` and one tick, the subscribers entry is still
displayed as 0 and untracked. -/
theorem C9_tick_frame_witness :
    (runOps [Op.setT Key.likes (RawValue.num 7), Op.tickOp] initState).data
        Key.subscribers = 0
    ∧ (runOps [Op.setT Key.likes (RawValue.num 7), Op.tickOp] initState).anim
        Key.subscribers = none :=
  C9_tick_frame_effect.1 [Op.setT Key.likes (RawValue.num 7), Op.tickOp]
    Key.subscribers (by decide)

/-- Claim C10: every integer strictly below 1000 — zero and every
negative integer included — is formatted as the plain locale-grouped
representation with no K/M/B suffix; a negative number is never
abbreviated regardless of its magnitude. -/
theorem C10_small_and_negative_plain :
    (∀ i : ℤ, i < 1000 → formatNumber i = intLocaleString i)
    ∧ (∀ i : ℤ, i < 0 → formatNumber i = intLocaleString i)
    ∧ formatNumber (-2300000000) = "-2,300,000,000"
    ∧ formatNumber 0 = "0"
    ∧ formatNumber 999 = "999" := by
  refine ⟨fun i h => formatNumber_small i h,
    fun i h => formatNumber_small i (by omega), ?_, ?_, ?_⟩
  · rw [formatNumber_small _ (by norm_num)]; decide
  · rw [formatNumber_small _ (by norm_num)]; decide
  · rw [formatNumber_small _ (by norm_num)]; decide

/-- Claim C10, witness for `C10_small_and_negative_plain` at -42. -/
theorem C10_small_witness : formatNumber (-42) = intLocaleString (-42) :=
  C10_small_and_negative_plain.2.1 (-42) (by norm_num)

end YTLive
